import Mathlib

/-!
Verification of the StellarIQ mobile client session and synchronization layer.

The definitions below are shallow embeddings of the TypeScript source:
  - src/services/tokenStorage.ts   (TokenStorage)
  - src/services/api.ts            (ApiService.request and friends)
  - src/contexts/AuthContext.tsx   (initializeAuth, logout)
  - src/navigation/AppNavigator.tsx (WatchlistProvider and alert helpers)
  - src/providers/NotificationProvider.tsx (registration effect)

Asynchronous storage and network calls are modelled by passing explicit
environment values describing the outcome of each external call; JavaScript
truthiness on optional fields is modelled with Option and explicit tests.
-/

/-- Market type of a tracked symbol, per the `market_type` union in the types. -/
inductive MarketType where
  | stock
  | crypto
deriving Repr, DecidableEq

/-- JavaScript `a || b` for an optional string, where the empty string is falsy. -/
def strOr (a : Option String) (b : String) : String :=
  match a with
  | some s => if s == "" then b else s
  | none => b

/-- JavaScript `a || b` for an optional number, where 0 is falsy. -/
def natOr (a : Option Nat) (b : Nat) : Nat :=
  match a with
  | some n => if n == 0 then b else n
  | none => b

/-- A watchlist item as held in the WatchlistProvider cache.  Fields that the
TypeScript code may leave `undefined` or `null` are Options; `none` covers both,
which is observationally faithful for every use site in the provider. -/
structure WatchlistItem where
  id : Nat
  ticker_id : Nat
  symbol : String
  name : String
  market_type : MarketType
  exchange : String
  alert_enabled : Bool
  alert_on_oversold : Option Bool := none
  alert_on_overbought : Option Bool := none
  alert_on_neutral : Option Bool := none
  price_alert_enabled : Option Bool := none
  alert_price_above : Option ℚ := none
  alert_price_below : Option ℚ := none
  created_at : String
deriving Repr, DecidableEq

/-- Derived alert summary returned by `getAlertSummary`. -/
structure AlertSummary where
  hasMarketAlerts : Bool
  hasPriceAlerts : Bool
  hasAnyAlerts : Bool
  marketAlertTypes : List String
  priceAlertTypes : List String
deriving Repr, DecidableEq

/-- `state.items.find(item => item.symbol === symbol)` in the provider. -/
def getWatchlistItem (items : List WatchlistItem) (symbol : String) :
    Option WatchlistItem :=
  items.find? (fun item => item.symbol == symbol)

/-- `isInWatchlist`: `state.items.some(item => item.symbol === symbol)`. -/
def isInWatchlist (items : List WatchlistItem) (symbol : String) : Bool :=
  items.any (fun item => item.symbol == symbol)

/-- `hasMarketAlertsEnabled` from the WatchlistProvider: the item exists,
`alert_enabled` holds and one of the three sub-flags is strictly `true`. -/
def hasMarketAlertsEnabled (items : List WatchlistItem) (symbol : String) : Bool :=
  match getWatchlistItem items symbol with
  | none => false
  | some item =>
      item.alert_enabled &&
        (item.alert_on_overbought == some true ||
         item.alert_on_oversold == some true ||
         item.alert_on_neutral == some true)

/-- `value !== undefined && value > 0` on an optional numeric field (also the
truthiness test `value && value > 0`, which agrees on every rational). -/
def posOpt (v : Option ℚ) : Bool :=
  match v with
  | some x => 0 < x
  | none => false

/-- `hasPriceAlertsEnabled` from the WatchlistProvider. -/
def hasPriceAlertsEnabled (items : List WatchlistItem) (symbol : String) : Bool :=
  match getWatchlistItem items symbol with
  | none => false
  | some item =>
      item.price_alert_enabled == some true &&
        (posOpt item.alert_price_above || posOpt item.alert_price_below)

/-- `hasAnyAlertsEnabled` from the WatchlistProvider. -/
def hasAnyAlertsEnabled (items : List WatchlistItem) (symbol : String) : Bool :=
  hasMarketAlertsEnabled items symbol || hasPriceAlertsEnabled items symbol

/-- JavaScript `Number.prototype.toFixed(2)` on a rational, rounding to the
nearest cent (exact for the decimal literals appearing in the client). -/
def toFixed2 (q : ℚ) : String :=
  let cents : Int := Int.fdiv (200 * q.num + q.den) (2 * q.den)
  let sign := if cents < 0 then "-" else ""
  let a := cents.natAbs
  let ip := a / 100
  let fp := a % 100
  sign ++ toString ip ++ "." ++ (if fp < 10 then "0" ++ toString fp else toString fp)

/-- `getAlertSummary` from the WatchlistProvider, line for line: lookup, the two
boolean digests, then the two label lists built from the raw item fields. -/
def getAlertSummary (items : List WatchlistItem) (symbol : String) :
    Option AlertSummary :=
  match getWatchlistItem items symbol with
  | none => none
  | some item =>
      let hasMarketAlerts := hasMarketAlertsEnabled items symbol
      let hasPriceAlerts := hasPriceAlertsEnabled items symbol
      let hasAnyAlerts := hasMarketAlerts || hasPriceAlerts
      let marketAlertTypes :=
        if item.alert_enabled then
          (if item.alert_on_overbought == some true then ["Overbought"] else []) ++
          (if item.alert_on_oversold == some true then ["Oversold"] else []) ++
          (if item.alert_on_neutral == some true then ["Neutral"] else [])
        else []
      let priceAlertTypes :=
        if item.price_alert_enabled == some true then
          (match item.alert_price_above with
           | some v => if 0 < v then ["Above $" ++ toFixed2 v] else []
           | none => []) ++
          (match item.alert_price_below with
           | some v => if 0 < v then ["Below $" ++ toFixed2 v] else []
           | none => [])
        else []
      some { hasMarketAlerts, hasPriceAlerts, hasAnyAlerts,
             marketAlertTypes, priceAlertTypes }

/-- Alert configuration a favorite may carry on the server side; the client
transform in `ApiService.getWatchlist` never reads it. -/
structure ServerAlertConfig where
  alert_enabled : Bool
  alert_on_overbought : Bool
  alert_on_oversold : Bool
  alert_on_neutral : Bool
  price_alert_enabled : Bool
  alert_price_above : Option ℚ
  alert_price_below : Option ℚ
deriving Repr, DecidableEq

/-- A favorite as delivered by the backend `/favorites/` endpoints. -/
structure Favorite where
  id : Nat
  symbol : String
  asset_type : MarketType
  exchange : Option String
  created_at : String
  serverConfig : ServerAlertConfig
deriving Repr, DecidableEq

/-- The per-item transform in `ApiService.getWatchlist`: hard-codes
`alert_enabled: false` and null price thresholds, and never copies any alert
configuration from the favorite. -/
def favoriteToLoadedItem (fav : Favorite) : WatchlistItem :=
  { id := fav.id
    ticker_id := fav.id
    symbol := fav.symbol
    name := fav.symbol
    market_type := fav.asset_type
    exchange := strOr fav.exchange ""
    alert_enabled := false
    alert_price_above := none
    alert_price_below := none
    created_at := fav.created_at }

/-- `ApiService.getWatchlist` item list: the favorites mapped through the
transform.  `loadWatchlist` stores exactly this list via SET_ITEMS. -/
def getWatchlistItems (favs : List Favorite) : List WatchlistItem :=
  favs.map favoriteToLoadedItem

/-- Stored token record, as persisted by `TokenStorage.storeTokens` under the
`auth_tokens` key (all four fields are always written). -/
structure AuthTokens where
  access_token : String
  refresh_token : String
  token_type : String
  expires_in : Nat
deriving Repr, DecidableEq

/-- Outcome of one `AsyncStorage` read in `TokenStorage`: a stored value, an
absent key, or an I/O failure thrown by the platform. -/
inductive StorageReadOutcome (α : Type) where
  | found (a : α)
  | absent
  | ioError (msg : String)
deriving Repr, DecidableEq

/-- `TokenStorage.getTokens`: returns the parsed record, null when the key is
absent, and null again from the catch block when the read throws. -/
def getTokensFromStorage : StorageReadOutcome AuthTokens → Option AuthTokens
  | .found t => some t
  | .absent => none
  | .ioError _ => none

/-- `TokenStorage.getAccessToken` on top of a storage read: catches any error to
null and applies the falsy-string coalescing of `tokens?.access_token || null`. -/
def getAccessTokenFromStorage (r : StorageReadOutcome AuthTokens) : Option String :=
  match getTokensFromStorage r with
  | some t => if t.access_token == "" then none else some t.access_token
  | none => none

/-- `TokenStorage.getAccessToken` applied to an in-memory view of the stored
record (`tokens?.access_token || null`). -/
def getAccessToken (st : Option AuthTokens) : Option String :=
  match st with
  | some t => if t.access_token == "" then none else some t.access_token
  | none => none

/-- `TokenStorage.getRefreshToken` (`tokens?.refresh_token || null`). -/
def getRefreshToken (st : Option AuthTokens) : Option String :=
  match st with
  | some t => if t.refresh_token == "" then none else some t.refresh_token
  | none => none

/-- Body of a successful `POST /auth/refresh` response, before the client
applies its defaults. -/
structure RefreshResp where
  access_token : String
  refresh_token : Option String
  token_type : Option String
  expires_in : Option Nat
deriving Repr, DecidableEq

/-- The token record produced by `ApiService.refreshToken` for a passed refresh
token `rt`, with the fallbacks `response.refresh_token || rt`,
`response.token_type || 'bearer'` and `response.expires_in || 1800`; the
`storeTokens` call in the 401 handler re-applies the same fallbacks and stores
exactly this record. -/
def refreshTokenResult (rt : String) (resp : RefreshResp) : AuthTokens :=
  { access_token := resp.access_token
    refresh_token := strOr resp.refresh_token rt
    token_type := strOr resp.token_type "bearer"
    expires_in := natOr resp.expires_in 1800 }

deriving instance DecidableEq for Except

/-- Outcome of one `fetch`: transport failure with the thrown message, or a
response with its status, parsed body on success, and the structured
`detail` field of an error body when present. -/
inductive FetchOutcome where
  | netError (msg : String)
  | response (status : Nat) (body : String) (errorDetail : Option String)
deriving Repr, DecidableEq

/-- The external world one `ApiService.request` call can touch: the first fetch
of the endpoint, the outcome of a `POST /auth/refresh` call should one be made,
and the retried fetch should one be made. -/
structure NetEnv where
  firstOutcome : FetchOutcome
  refreshOutcome : Except String RefreshResp
  retryOutcome : FetchOutcome
deriving Repr, DecidableEq

/-- `response.ok`: status in the 2xx range. -/
def isOkStatus (s : Nat) : Bool := 200 ≤ s && s ≤ 299

/-- The message of the error thrown after the 401 handler exhausts refresh. -/
def authRequiredMsg : String := "Authentication required"

/-- The connectivity rewrite message in the outer catch of `request`. -/
def cannotConnectMsg : String :=
  "Cannot connect to server. Check if backend is running and network connection."

/-- Whether `pat` occurs as a substring of `s` (for nonempty `pat`), used to
model `error.message.includes(pat)`. -/
def containsSub (s pat : String) : Bool := (s.splitOn pat).length != 1

/-- The outer catch of `request`: rewrites messages mentioning a fetch failure
to the generic connectivity message and rethrows everything else. -/
def rewriteNetworkError (msg : String) : String :=
  if containsSub msg "Network request failed" || containsSub msg "fetch" then
    cannotConnectMsg
  else msg

/-- What one `ApiService.request` call did: its result or thrown message, the
final content of token storage, how many times the target endpoint was fetched,
how many refresh calls were issued, and the Authorization header attached to
the first and to the retried fetch. -/
structure RequestResult where
  outcome : Except String String
  store : Option AuthTokens
  originFetches : Nat
  refreshCalls : Nat
  firstAuthHeader : Option String
  retryAuthHeader : Option String
deriving Repr, DecidableEq

/-- `ApiService.request` with `requireAuth`: attach the bearer header when a
token is stored; on a 401 with `requireAuth`, read the refresh token, issue one
refresh call, store the new tokens and retry once with the new access token;
when the retry is not ok, the refresh fails, or no refresh token is stored,
clear storage and throw `Authentication required`; on a non-401 error status
throw the detail or `HTTP <status>`; transport failures surface through the
connectivity rewrite. -/
def request (st : Option AuthTokens) (requireAuth : Bool) (env : NetEnv) :
    RequestResult :=
  let firstAuthHeader :=
    if requireAuth then (getAccessToken st).map (fun tok => "Bearer " ++ tok)
    else none
  match env.firstOutcome with
  | .netError msg =>
      { outcome := .error (rewriteNetworkError msg), store := st,
        originFetches := 1, refreshCalls := 0,
        firstAuthHeader, retryAuthHeader := none }
  | .response status body errorDetail =>
      if status == 401 && requireAuth then
        match getRefreshToken st with
        | some rt =>
            match env.refreshOutcome with
            | .ok resp =>
                let newTokens := refreshTokenResult rt resp
                let retryAuthHeader := some ("Bearer " ++ resp.access_token)
                match env.retryOutcome with
                | .netError _ =>
                    -- the retried fetch throws inside the inner try, so the
                    -- inner catch clears storage and raises authentication
                    { outcome := .error authRequiredMsg, store := none,
                      originFetches := 2, refreshCalls := 1,
                      firstAuthHeader, retryAuthHeader }
                | .response rs rbody _ =>
                    if isOkStatus rs then
                      { outcome := .ok rbody, store := some newTokens,
                        originFetches := 2, refreshCalls := 1,
                        firstAuthHeader, retryAuthHeader }
                    else
                      { outcome := .error authRequiredMsg, store := none,
                        originFetches := 2, refreshCalls := 1,
                        firstAuthHeader, retryAuthHeader }
            | .error _ =>
                { outcome := .error authRequiredMsg, store := none,
                  originFetches := 1, refreshCalls := 1,
                  firstAuthHeader, retryAuthHeader := none }
        | none =>
            { outcome := .error authRequiredMsg, store := none,
              originFetches := 1, refreshCalls := 0,
              firstAuthHeader, retryAuthHeader := none }
      else
        if isOkStatus status then
          { outcome := .ok body, store := st,
            originFetches := 1, refreshCalls := 0,
            firstAuthHeader, retryAuthHeader := none }
        else
          { outcome := .error (rewriteNetworkError
              (match errorDetail with
               | some d => d
               | none => "HTTP " ++ toString status)),
            store := st, originFetches := 1, refreshCalls := 0,
            firstAuthHeader, retryAuthHeader := none }

/-- The AuthContext reducer state (user modelled abstractly by its JSON body). -/
structure AuthStateM where
  user : Option String
  tokens : Option AuthTokens
  isAuthenticated : Bool
  isLoading : Bool
  error : Option String
deriving Repr, DecidableEq

/-- `initialState` of the AuthContext reducer. -/
def initialAuthState : AuthStateM :=
  { user := none, tokens := none, isAuthenticated := false,
    isLoading := true, error := none }

/-- The LOGOUT action: reset to the initial state with loading finished. -/
def logoutAction : AuthStateM :=
  { initialAuthState with isLoading := false }

/-- Result of `initializeAuth`: the reducer state reached, the final storage
contents, and the activity of the embedded `/auth/me` verification request. -/
structure InitAuthResult where
  isAuthenticated : Bool
  user : Option String
  store : Option AuthTokens
  userStore : Option String
  refreshCalls : Nat
  meFetches : Nat
deriving Repr, DecidableEq

/-- `initializeAuth` from AuthContext: when both tokens and a user are stored,
optimistically authenticate, then verify by `getCurrentUser`, which is an
ordinary `request` with `requireAuth = true`; on success store and adopt the
fresh user, on any thrown error clear storage and dispatch LOGOUT.  When either
key is absent nothing is dispatched and no network is touched. -/
def initializeAuth (st : Option AuthTokens) (storedUser : Option String)
    (env : NetEnv) : InitAuthResult :=
  match st, storedUser with
  | some tokens, some _ =>
      let r := request (some tokens) true env
      match r.outcome with
      | .ok body =>
          { isAuthenticated := true, user := some body, store := r.store,
            userStore := some body, refreshCalls := r.refreshCalls,
            meFetches := r.originFetches }
      | .error _ =>
          { isAuthenticated := false, user := none, store := none,
            userStore := none, refreshCalls := r.refreshCalls,
            meFetches := r.originFetches }
  | _, _ =>
      { isAuthenticated := false, user := none, store := st,
        userStore := storedUser, refreshCalls := 0, meFetches := 0 }

/-- The WatchlistProvider auth effect (lines 386 to 401): once auth loading has
finished, a non-authenticated user has the item list cleared; otherwise the
synchronous state is unchanged (the authenticated branch only schedules a
load). -/
def watchlistAuthEffect (authLoading isAuthenticated : Bool)
    (items : List WatchlistItem) : List WatchlistItem :=
  if !authLoading && !isAuthenticated then [] else items

/-- The client state touched by logout: both storage keys, the auth reducer
state and the watchlist cache. -/
structure AppState where
  storage : Option AuthTokens
  userStorage : Option String
  auth : AuthStateM
  watchlistItems : List WatchlistItem
deriving Repr, DecidableEq

/-- `logout` from AuthContext followed by the WatchlistProvider auth effect:
the backend logout call is best-effort and its outcome ignored, `clearAuth`
removes both storage keys, LOGOUT resets the reducer, and the effect observes
the now unauthenticated, non-loading state and clears the items. -/
def logout (s : AppState) : AppState :=
  { storage := none
    userStorage := none
    auth := logoutAction
    watchlistItems :=
      watchlistAuthEffect logoutAction.isLoading logoutAction.isAuthenticated
        s.watchlistItems }

/-- Outcome of `addToWatchlist` in the WatchlistProvider, one constructor per
exit path of the function. -/
inductive AddOutcome where
  | notAuthenticated
  | noToken
  | duplicate
  | added
  | failed (msg : String)
deriving Repr, DecidableEq

/-- The transform in `ApiService.addToWatchlist` applied to the favorite the
server returns on create: `alert_enabled: false` and no other alert fields. -/
def favoriteToCreatedItem (fav : Favorite) : WatchlistItem :=
  { id := fav.id
    ticker_id := fav.id
    symbol := fav.symbol
    name := fav.symbol
    market_type := fav.asset_type
    exchange := strOr fav.exchange ""
    alert_enabled := false
    created_at := fav.created_at }

/-- `addToWatchlist(symbol, marketType)` from the WatchlistProvider: reject
when not authenticated or without a stored access token; reject locally when
`isInWatchlist(symbol)` already holds, issuing no remote call; otherwise issue
the one remote create (`remote` is its outcome) and append the canonical item
the server returned.  The third component counts remote create calls. -/
def addToWatchlist (isAuthenticated : Bool) (token : Option String)
    (items : List WatchlistItem) (symbol : String) (_marketType : MarketType)
    (remote : Except String Favorite) :
    AddOutcome × List WatchlistItem × Nat :=
  if !isAuthenticated then (.notAuthenticated, items, 0)
  else
    match token with
    | none => (.noToken, items, 0)
    | some _ =>
        if isInWatchlist items symbol then (.duplicate, items, 0)
        else
          match remote with
          | .ok fav => (.added, items ++ [favoriteToCreatedItem fav], 1)
          | .error msg => (.failed msg, items, 1)

/-- The message `ApiService.removeFromWatchlist(itemId)` throws unconditionally,
before issuing any network call. -/
def removeRequiresSymbolMsg : String :=
  "Remove from watchlist requires symbol, not ID. Use removeFromWatchlistBySymbol instead."

/-- `ApiService.removeFromWatchlist(itemId)`: an unconditional throw and zero
network calls (the second component counts remote delete calls issued). -/
def apiRemoveFromWatchlist (_itemId : Nat) : Except String String × Nat :=
  (.error removeRequiresSymbolMsg, 0)

/-- Outcome of `removeFromWatchlist` in the WatchlistProvider. -/
inductive RemoveOutcome where
  | notAuthenticated
  | noToken
  | notFound
  | removed
  | failed (msg : String)
deriving Repr, DecidableEq

/-- `removeFromWatchlist(symbol)` from the WatchlistProvider: guard on auth and
token, resolve the item by symbol to obtain its id, call
`ApiService.removeFromWatchlist(item.id)` and on success dispatch REMOVE_ITEM;
a thrown error leaves the cache untouched.  The third component counts remote
delete calls. -/
def removeFromWatchlist (isAuthenticated : Bool) (token : Option String)
    (items : List WatchlistItem) (symbol : String) :
    RemoveOutcome × List WatchlistItem × Nat :=
  if !isAuthenticated then (.notAuthenticated, items, 0)
  else
    match token with
    | none => (.noToken, items, 0)
    | some _ =>
        match items.find? (fun item => item.symbol == symbol) with
        | none => (.notFound, items, 0)
        | some item =>
            match apiRemoveFromWatchlist item.id with
            | (.ok _, n) =>
                (.removed, items.filter (fun it => !(it.symbol == symbol)), n)
            | (.error msg, n) => (.failed msg, items, n)

/-- The NotificationProvider state the registration effect reads and writes,
plus two observation lists recording, at the network boundary, which push token
each `registerDeviceToken` call sent and which of those calls succeeded. -/
structure NotifState where
  expoPushToken : Option String
  isPermissionGranted : Bool
  isRegistered : Bool
  isAuthenticated : Bool
  attempts : List String
  successes : List String
deriving Repr, DecidableEq

/-- The initial NotificationProvider state. -/
def initialNotifState : NotifState :=
  { expoPushToken := none, isPermissionGranted := false, isRegistered := false,
    isAuthenticated := false, attempts := [], successes := [] }

/-- The registration effect of the NotificationProvider (lines 53 to 66 plus
`registerWithAPI`): when authenticated with a push token and not yet
registered, issue one registration call; `env n` is the outcome of the nth
call overall; success sets the single `isRegistered` flag. -/
def notificationEffect (env : Nat → Bool) (s : NotifState) : NotifState :=
  match s.expoPushToken with
  | some tok =>
      if s.isAuthenticated && !s.isRegistered then
        let ok := env s.attempts.length
        { s with attempts := s.attempts ++ [tok]
                 isRegistered := ok
                 successes := if ok then s.successes ++ [tok] else s.successes }
      else s
  | none => s

/-- An asynchronous fact change feeding the provider: the auth context
reporting a new authentication state, or a permission request resolving with
its grant result and, when granted and token acquisition succeeds, a (possibly
new) push token. -/
inductive NotifEvent where
  | setAuth (b : Bool)
  | permissionUpdate (granted : Bool) (newToken : Option String)
deriving Repr, DecidableEq

/-- Apply one fact change and re-run the registration effect, as the dependency
array `[isAuthenticated, expoPushToken, isRegistered]` makes the provider do. -/
def notificationStep (env : Nat → Bool) (s : NotifState) :
    NotifEvent → NotifState
  | .setAuth b => notificationEffect env { s with isAuthenticated := b }
  | .permissionUpdate granted newToken =>
      notificationEffect env
        { s with
          isPermissionGranted := granted
          expoPushToken :=
            if granted then
              match newToken with
              | some t => some t
              | none => s.expoPushToken
            else s.expoPushToken }

/-- Run a sequence of fact changes from a state. -/
def notificationRun (env : Nat → Bool) (s : NotifState)
    (evs : List NotifEvent) : NotifState :=
  evs.foldl (notificationStep env) s

lemma getWatchlistItem_congr {items1 items2 : List WatchlistItem} {sym : String}
    (h : getWatchlistItem items1 sym = getWatchlistItem items2 sym) :
    hasMarketAlertsEnabled items1 sym = hasMarketAlertsEnabled items2 sym
    ∧ hasPriceAlertsEnabled items1 sym = hasPriceAlertsEnabled items2 sym := by
  unfold hasMarketAlertsEnabled hasPriceAlertsEnabled
  rw [h]
  exact ⟨rfl, rfl⟩

/-- The test item of the alert summary consistency property. -/
def c8Item : WatchlistItem :=
  { id := 1, ticker_id := 1, symbol := "AAPL", name := "AAPL",
    market_type := .stock, exchange := "",
    alert_enabled := true,
    alert_on_oversold := some false,
    alert_on_overbought := some true,
    alert_on_neutral := some false,
    price_alert_enabled := some true,
    alert_price_above := some 200,
    alert_price_below := none,
    created_at := "" }

/-- C8: getAlertSummary is a pure function of the cached item; hasMarketAlerts
holds iff alert_enabled and one of the overbought, oversold or neutral
sub-flags is set; hasPriceAlerts holds iff price_alert_enabled and one of the
two price thresholds is a positive number; hasAnyAlerts is their disjunction;
and on the item with alert_enabled, overbought only, price alerts enabled with
threshold 200 above, the summary is exactly hasMarketAlerts, hasPriceAlerts,
hasAnyAlerts all true, market types Overbought, price types Above 200.00
dollars. -/
theorem c8_getAlertSummary_spec :
    (∀ (items1 items2 : List WatchlistItem) (sym : String),
        getWatchlistItem items1 sym = getWatchlistItem items2 sym →
        getAlertSummary items1 sym = getAlertSummary items2 sym)
    ∧ (∀ (items : List WatchlistItem) (sym : String) (item : WatchlistItem),
        getWatchlistItem items sym = some item →
        ((hasMarketAlertsEnabled items sym = true) ↔
          (item.alert_enabled = true ∧
            (item.alert_on_overbought = some true ∨
             item.alert_on_oversold = some true ∨
             item.alert_on_neutral = some true)))
        ∧ ((hasPriceAlertsEnabled items sym = true) ↔
          (item.price_alert_enabled = some true ∧
            ((∃ v, item.alert_price_above = some v ∧ 0 < v) ∨
             (∃ v, item.alert_price_below = some v ∧ 0 < v))))
        ∧ hasAnyAlertsEnabled items sym
            = (hasMarketAlertsEnabled items sym || hasPriceAlertsEnabled items sym))
    ∧ getAlertSummary [c8Item] "AAPL"
        = some { hasMarketAlerts := true, hasPriceAlerts := true,
                 hasAnyAlerts := true, marketAlertTypes := ["Overbought"],
                 priceAlertTypes := ["Above $200.00"] } := by
  refine ⟨?_, ?_, ?_⟩
  · intro items1 items2 sym h
    unfold getAlertSummary
    rw [h, (getWatchlistItem_congr h).1, (getWatchlistItem_congr h).2]
  · intro items sym item h
    refine ⟨?_, ?_, rfl⟩
    · unfold hasMarketAlertsEnabled
      rw [h]
      simp only [Bool.and_eq_true, Bool.or_eq_true, beq_iff_eq]
      rw [or_assoc]
    · unfold hasPriceAlertsEnabled
      rw [h]
      simp only [Bool.and_eq_true, Bool.or_eq_true, beq_iff_eq]
      constructor
      · rintro ⟨h1, h2⟩
        refine ⟨h1, ?_⟩
        rcases h2 with h2 | h2
        · left
          cases hv : item.alert_price_above with
          | none => rw [hv] at h2; simp [posOpt] at h2
          | some v =>
              rw [hv] at h2
              simp only [posOpt, decide_eq_true_eq] at h2
              exact ⟨v, rfl, h2⟩
        · right
          cases hv : item.alert_price_below with
          | none => rw [hv] at h2; simp [posOpt] at h2
          | some v =>
              rw [hv] at h2
              simp only [posOpt, decide_eq_true_eq] at h2
              exact ⟨v, rfl, h2⟩
      · rintro ⟨h1, h2⟩
        refine ⟨h1, ?_⟩
        rcases h2 with ⟨v, hv, hpos⟩ | ⟨v, hv, hpos⟩
        · left; rw [hv]; simp [posOpt, hpos]
        · right; rw [hv]; simp [posOpt, hpos]
  · decide

/-- Witness for C8: the concrete assertions at the test item. -/
theorem c8_getAlertSummary_spec_witness :
    getAlertSummary [c8Item] "AAPL" = getAlertSummary [c8Item] "AAPL"
    ∧ (hasMarketAlertsEnabled [c8Item] "AAPL" = true ↔
        (c8Item.alert_enabled = true ∧
          (c8Item.alert_on_overbought = some true ∨
           c8Item.alert_on_oversold = some true ∨
           c8Item.alert_on_neutral = some true))) :=
  ⟨c8_getAlertSummary_spec.1 [c8Item] [c8Item] "AAPL" rfl,
   (c8_getAlertSummary_spec.2.1 [c8Item] "AAPL" c8Item (by decide)).1⟩

lemma loadedItem_fields {it : WatchlistItem} {favs : List Favorite}
    (h : it ∈ getWatchlistItems favs) :
    it.alert_enabled = false ∧ it.alert_on_overbought = none
    ∧ it.alert_on_oversold = none ∧ it.alert_on_neutral = none
    ∧ it.price_alert_enabled = none ∧ it.alert_price_above = none
    ∧ it.alert_price_below = none := by
  simp only [getWatchlistItems, List.mem_map] at h
  obtain ⟨fav, _, rfl⟩ := h
  simp [favoriteToLoadedItem]

lemma loaded_lookup_fields {favs : List Favorite} {sym : String}
    {it : WatchlistItem}
    (h : getWatchlistItem (getWatchlistItems favs) sym = some it) :
    it.alert_enabled = false ∧ it.price_alert_enabled = none := by
  have hm := List.mem_of_find?_eq_some h
  exact ⟨(loadedItem_fields hm).1, (loadedItem_fields hm).2.2.2.2.1⟩

/-- C10: every item delivered by a load from the backend is cached with
alert_enabled false and null price thresholds, so immediately after any load
every alert query is false and every summary reports empty alert type lists,
whatever alert configuration the server holds for the favorites. -/
theorem c10_load_discards_server_alert_config :
    ∀ (favs : List Favorite) (sym : String),
      ((getWatchlistItems favs).all fun it =>
          !it.alert_enabled && it.alert_price_above.isNone &&
          it.alert_price_below.isNone) = true
      ∧ hasMarketAlertsEnabled (getWatchlistItems favs) sym = false
      ∧ hasPriceAlertsEnabled (getWatchlistItems favs) sym = false
      ∧ hasAnyAlertsEnabled (getWatchlistItems favs) sym = false
      ∧ ((getAlertSummary (getWatchlistItems favs) sym).all fun s =>
          s.marketAlertTypes.isEmpty && s.priceAlertTypes.isEmpty &&
          !s.hasAnyAlerts) = true := by
  intro favs sym
  have hmarket : hasMarketAlertsEnabled (getWatchlistItems favs) sym = false := by
    cases h : getWatchlistItem (getWatchlistItems favs) sym with
    | none => unfold hasMarketAlertsEnabled; rw [h]
    | some it =>
        unfold hasMarketAlertsEnabled
        rw [h]
        dsimp only
        rw [(loaded_lookup_fields h).1]
        rfl
  have hprice : hasPriceAlertsEnabled (getWatchlistItems favs) sym = false := by
    cases h : getWatchlistItem (getWatchlistItems favs) sym with
    | none => unfold hasPriceAlertsEnabled; rw [h]
    | some it =>
        unfold hasPriceAlertsEnabled
        rw [h]
        dsimp only
        rw [(loaded_lookup_fields h).2]
        rfl
  refine ⟨?_, hmarket, hprice, ?_, ?_⟩
  · rw [List.all_eq_true]
    intro it hit
    obtain ⟨h1, _, _, _, _, h6, h7⟩ := loadedItem_fields hit
    rw [h1, h6, h7]
    rfl
  · unfold hasAnyAlertsEnabled
    rw [hmarket, hprice]
    rfl
  · cases h : getWatchlistItem (getWatchlistItems favs) sym with
    | none => unfold getAlertSummary; rw [h]; rfl
    | some it =>
        obtain ⟨h1, h5⟩ := loaded_lookup_fields h
        unfold getAlertSummary
        rw [h]
        dsimp only
        rw [h1, h5, hmarket, hprice]
        rfl

/-- C5 counterexample: a failing storage read and an absent session produce the
identical result from both token read operations, so a caller cannot
distinguish a storage failure from no stored session, contradicting the claim
that a distinct StorageError is always surfaced. -/
theorem c5_storage_error_conflated :
    getTokensFromStorage (.ioError "disk read failed")
      = getTokensFromStorage .absent
    ∧ getAccessTokenFromStorage (.ioError "disk read failed")
      = getAccessTokenFromStorage .absent :=
  ⟨rfl, rfl⟩

/-- C5 amended: a storage I/O failure during a Credential Store read is caught
inside TokenStorage and surfaced as null, the same value as when no session is
stored, for every failure message. -/
theorem c5_storage_read_failure_is_null :
    ∀ msg : String,
      getTokensFromStorage (.ioError msg) = none
      ∧ getAccessTokenFromStorage (.ioError msg) = none
      ∧ getTokensFromStorage (.ioError msg) = getTokensFromStorage .absent
      ∧ getAccessTokenFromStorage (.ioError msg)
          = getAccessTokenFromStorage .absent := by
  intro msg
  exact ⟨rfl, rfl, rfl, rfl⟩

/-- The favorite the backend returns for the create call of the watchlist
uniqueness test. -/
def c6Fav : Favorite :=
  { id := 7, symbol := "AAPL", asset_type := .stock, exchange := some "NASDAQ",
    created_at := "2024-01-01",
    serverConfig :=
      { alert_enabled := false, alert_on_overbought := false,
        alert_on_oversold := false, alert_on_neutral := false,
        price_alert_enabled := false, alert_price_above := none,
        alert_price_below := none } }

/-- C6: a symbol already watched makes addToWatchlist fail locally as a
duplicate with no remote create call; an add of a fresh symbol preserves
uniqueness of symbols in the cache; and two sequential adds of AAPL issue
exactly one remote create call, with the second failing as a duplicate. -/
theorem c6_add_duplicate_guard :
    (∀ (tk : String) (items : List WatchlistItem) (sym : String)
        (mt : MarketType) (remote : Except String Favorite),
        isInWatchlist items sym = true →
        addToWatchlist true (some tk) items sym mt remote
          = (.duplicate, items, 0))
    ∧ (∀ (tk : String) (items : List WatchlistItem) (sym : String)
        (mt : MarketType) (fav : Favorite),
        (items.map fun it => it.symbol).Nodup → fav.symbol = sym →
        (((addToWatchlist true (some tk) items sym mt (.ok fav)).2.1).map
            fun it => it.symbol).Nodup)
    ∧ ((addToWatchlist true (some "tok")
          (addToWatchlist true (some "tok") [] "AAPL" .stock (.ok c6Fav)).2.1
          "AAPL" .stock (.ok c6Fav)).1 = .duplicate
      ∧ (addToWatchlist true (some "tok") [] "AAPL" .stock (.ok c6Fav)).2.2
        + (addToWatchlist true (some "tok")
            (addToWatchlist true (some "tok") [] "AAPL" .stock (.ok c6Fav)).2.1
            "AAPL" .stock (.ok c6Fav)).2.2 = 1) := by
  refine ⟨?_, ?_, by decide, by decide⟩
  · intro tk items sym mt remote h
    unfold addToWatchlist
    rw [h]
    rfl
  · intro tk items sym mt fav hnodup hsym
    have hstep : addToWatchlist true (some tk) items sym mt (.ok fav)
        = if isInWatchlist items sym then (.duplicate, items, 0)
          else (.added, items ++ [favoriteToCreatedItem fav], 1) := rfl
    cases hin : isInWatchlist items sym with
    | true => rw [hstep, hin, if_pos rfl]; simpa using hnodup
    | false =>
        rw [hstep, hin, if_neg (by simp)]
        dsimp only
        rw [List.map_append]
        rw [List.nodup_append]
        refine ⟨hnodup, by simp, ?_⟩
        intro a ha hb
        simp only [List.map_cons, List.map_nil, List.mem_singleton] at hb
        subst hb
        rw [show (favoriteToCreatedItem fav).symbol = sym from by
          simp [favoriteToCreatedItem, hsym]] at ha
        unfold isInWatchlist at hin
        rw [List.any_eq_false] at hin
        simp only [List.mem_map] at ha
        obtain ⟨it, hit, hsymeq⟩ := ha
        have := hin it hit
        rw [hsymeq] at this
        simp at this

/-- Witness for C6: the duplicate guard and the uniqueness preservation at a
concrete watchlist. -/
theorem c6_add_duplicate_guard_witness :
    addToWatchlist true (some "tok") [favoriteToCreatedItem c6Fav] "AAPL"
        .stock (.ok c6Fav)
      = (.duplicate, [favoriteToCreatedItem c6Fav], 0)
    ∧ (((addToWatchlist true (some "tok") [] "AAPL" .stock
          (.ok c6Fav)).2.1).map fun it => it.symbol).Nodup :=
  ⟨c6_add_duplicate_guard.1 "tok" [favoriteToCreatedItem c6Fav] "AAPL" .stock
      (.ok c6Fav) (by decide),
   c6_add_duplicate_guard.2.1 "tok" [] "AAPL" .stock c6Fav (by decide) rfl⟩

/-- The cached item of the remove test. -/
def c7Item : WatchlistItem :=
  { id := 1, ticker_id := 1, symbol := "AAPL", name := "AAPL",
    market_type := .stock, exchange := "", alert_enabled := false,
    created_at := "2024-01-01" }

/-- C7: on a watchlist containing AAPL, removeFromWatchlist resolves the item
by symbol and then calls the id-keyed ApiService.removeFromWatchlist, which
throws unconditionally before any network call; the remove therefore fails with
that message, the cache is untouched and zero remote delete calls are issued;
in general no call of removeFromWatchlist can ever return the removed
outcome. -/
theorem c7_remove_always_fails :
    removeFromWatchlist true (some "tok") [c7Item] "AAPL"
      = (.failed removeRequiresSymbolMsg, [c7Item], 0)
    ∧ ∀ (auth : Bool) (tk : Option String) (items : List WatchlistItem)
        (sym : String),
        (removeFromWatchlist auth tk items sym).1 ≠ RemoveOutcome.removed := by
  refine ⟨by decide, ?_⟩
  intro auth tk items sym
  unfold removeFromWatchlist
  cases auth with
  | false => simp
  | true =>
      cases tk with
      | none => simp
      | some t =>
          dsimp only
          cases items.find? (fun item => item.symbol == sym) with
          | none => simp
          | some item => simp [apiRemoveFromWatchlist]

/-- Witness for C7 (the theorem carries no hypothesis; this instantiates the
universally quantified part at a concrete call). -/
theorem c7_remove_always_fails_witness :
    (removeFromWatchlist true (some "tok") [c7Item] "AAPL").1
      ≠ RemoveOutcome.removed :=
  c7_remove_always_fails.2 true (some "tok") [c7Item] "AAPL"

lemma request_counts_bound (st : Option AuthTokens) (ra : Bool) (env : NetEnv) :
    (request st ra env).originFetches ≤ 2
    ∧ (request st ra env).refreshCalls ≤ 1 := by
  unfold request
  cases env.firstOutcome with
  | netError msg => exact ⟨by norm_num, by norm_num⟩
  | response status body errorDetail =>
      dsimp only
      by_cases h401 : (status == 401 && ra) = true
      · rw [if_pos h401]
        cases getRefreshToken st with
        | none => exact ⟨by norm_num, by norm_num⟩
        | some rt =>
            dsimp only
            cases env.refreshOutcome with
            | error e => exact ⟨by norm_num, by norm_num⟩
            | ok resp =>
                dsimp only
                cases env.retryOutcome with
                | netError m => exact ⟨by norm_num, by norm_num⟩
                | response rs rbody rd =>
                    dsimp only
                    by_cases hok : isOkStatus rs = true
                    · rw [if_pos hok]; exact ⟨by norm_num, by norm_num⟩
                    · rw [if_neg hok]; exact ⟨by norm_num, by norm_num⟩
      · rw [if_neg h401]
        by_cases hok : isOkStatus status = true
        · rw [if_pos hok]; exact ⟨by norm_num, by norm_num⟩
        · rw [if_neg hok]; exact ⟨by norm_num, by norm_num⟩

/-- C1: on a 401 under requireAuth with a stored refresh token, a successful
refresh and a 2xx retry, the pipeline issues exactly one refresh call, retries
the original request exactly once carrying the new access token, returns the
retry body as the result of the single logical call, and stores the refreshed
tokens; moreover no call of the pipeline ever fetches the target endpoint more
than twice or refreshes more than once. -/
theorem c1_refresh_and_retry :
    (∀ (st : Option AuthTokens) (env : NetEnv) (b : String) (d : Option String)
        (rt : String) (resp : RefreshResp) (rs : Nat) (rbody : String)
        (rd : Option String),
        env.firstOutcome = .response 401 b d →
        getRefreshToken st = some rt →
        env.refreshOutcome = .ok resp →
        env.retryOutcome = .response rs rbody rd →
        isOkStatus rs = true →
        (request st true env).outcome = .ok rbody
        ∧ (request st true env).refreshCalls = 1
        ∧ (request st true env).originFetches = 2
        ∧ (request st true env).retryAuthHeader
            = some ("Bearer " ++ resp.access_token)
        ∧ (request st true env).store = some (refreshTokenResult rt resp))
    ∧ ∀ (st : Option AuthTokens) (ra : Bool) (env : NetEnv),
        (request st ra env).originFetches ≤ 2
        ∧ (request st ra env).refreshCalls ≤ 1 := by
  refine ⟨?_, request_counts_bound⟩
  intro st env b d rt resp rs rbody rd hfirst hrt hrefresh hretry hok
  unfold request
  rw [hfirst, hrt, hrefresh, hretry]
  dsimp only
  rw [if_pos (by rfl), if_pos hok]
  exact ⟨rfl, rfl, rfl, rfl, rfl⟩

/-- The stored session used by the concrete pipeline scenarios. -/
def demoTokens : AuthTokens :=
  { access_token := "a0", refresh_token := "r0", token_type := "bearer",
    expires_in := 1800 }

/-- Environment of the C1 witness: first fetch 401, refresh succeeds, retry
returns 200. -/
def c1Env : NetEnv :=
  { firstOutcome := .response 401 "" none
    refreshOutcome := .ok { access_token := "a1", refresh_token := some "r1",
                            token_type := some "bearer", expires_in := some 1800 }
    retryOutcome := .response 200 "fresh-body" none }

/-- Witness for C1 at the concrete scenario. -/
theorem c1_refresh_and_retry_witness :
    (request (some demoTokens) true c1Env).outcome = .ok "fresh-body"
    ∧ (request (some demoTokens) true c1Env).refreshCalls = 1
    ∧ (request (some demoTokens) true c1Env).originFetches = 2 :=
  have h := c1_refresh_and_retry.1 (some demoTokens) c1Env "" none "r0"
    { access_token := "a1", refresh_token := some "r1",
      token_type := some "bearer", expires_in := some 1800 }
    200 "fresh-body" none rfl (by decide) rfl rfl (by decide)
  ⟨h.1, h.2.1, h.2.2.1⟩

/-- Total number of refresh calls issued when two authenticated requests both
receive 401 before either refresh completes, under the event-loop schedule in
which the first caller then runs to completion and the second caller resumes
from its already-received 401 against the updated token storage.  The
ApiService instance holds no shared in-flight-refresh state (its only field is
baseUrl), so each caller runs the 401 handler independently. -/
def twoConcurrent401Refreshes (st : Option AuthTokens) (env1 env2 : NetEnv) :
    Nat :=
  (request st true env1).refreshCalls
    + (request (request st true env1).store true env2).refreshCalls

/-- Environment of the second concurrent request of the C2 scenario. -/
def c2Env2 : NetEnv :=
  { firstOutcome := .response 401 "" none
    refreshOutcome := .ok { access_token := "a2", refresh_token := some "r2",
                            token_type := some "bearer", expires_in := some 1800 }
    retryOutcome := .response 200 "second-body" none }

/-- C2: two concurrent authenticated requests that both receive 401 with a
valid stored refresh token issue two refresh calls to the backend, not one;
the per-request 401 handler has no in-flight-refresh guard. -/
theorem c2_two_concurrent_401_two_refreshes :
    twoConcurrent401Refreshes (some demoTokens) c1Env c2Env2 = 2 := by decide

/-- The authenticated app state used by the logout scenarios. -/
def c3AppState : AppState :=
  { storage := some demoTokens
    userStorage := some "user-json"
    auth := { user := some "user-json", tokens := some demoTokens,
              isAuthenticated := true, isLoading := false, error := none }
    watchlistItems := [c7Item] }

/-- Environment in which the backend answers 200 to the post-logout call. -/
def c3OkEnv : NetEnv :=
  { firstOutcome := .response 200 "public-body" none
    refreshOutcome := .error "unused"
    retryOutcome := .response 200 "" none }

/-- C3 counterexample: immediately after logout, a call issued with
requireAuth true still performs a network fetch (one origin fetch), and when
the backend happens to answer 2xx the call even succeeds instead of failing
fast with AuthenticationRequiredError. -/
theorem c3_post_logout_call_hits_network :
    (request (logout c3AppState).storage true c3OkEnv).originFetches = 1
    ∧ (request (logout c3AppState).storage true c3OkEnv).outcome
        = .ok "public-body" := by decide

/-- C3 amended: after Logout(), isAuthenticated is false, the watchlist items
list is empty and both storage keys are cleared; a subsequent authenticated
call is still sent over the network without an Authorization header, and when
the backend answers 401 it fails with the Authentication required error after
that single fetch, with no refresh call. -/
theorem c3_logout_clears_state :
    ∀ (s : AppState) (env : NetEnv) (b : String) (d : Option String),
      (logout s).auth.isAuthenticated = false
      ∧ (logout s).watchlistItems = []
      ∧ (logout s).storage = none
      ∧ (logout s).userStorage = none
      ∧ (env.firstOutcome = .response 401 b d →
          (request (logout s).storage true env).outcome = .error authRequiredMsg
          ∧ (request (logout s).storage true env).originFetches = 1
          ∧ (request (logout s).storage true env).refreshCalls = 0
          ∧ (request (logout s).storage true env).firstAuthHeader = none) := by
  intro s env b d
  refine ⟨rfl, rfl, rfl, rfl, ?_⟩
  intro hfirst
  have hlogout : (logout s).storage = none := rfl
  rw [hlogout]
  unfold request
  rw [hfirst]
  dsimp only
  rw [if_pos (by rfl)]
  exact ⟨rfl, rfl, rfl, rfl⟩

/-- Environment in which the backend answers 401 to the post-logout call. -/
def c3Env401 : NetEnv :=
  { firstOutcome := .response 401 "x" none
    refreshOutcome := .error "unused"
    retryOutcome := .response 200 "" none }

/-- Witness for the amended C3 at a concrete state and environment. -/
theorem c3_logout_clears_state_witness :
    (logout c3AppState).watchlistItems = []
    ∧ (request (logout c3AppState).storage true c3Env401).outcome
        = .error authRequiredMsg :=
  ⟨(c3_logout_clears_state c3AppState c3Env401 "x" none).2.1,
   ((c3_logout_clears_state c3AppState c3Env401 "x" none).2.2.2.2 rfl).1⟩

/-- Environment of the C4 scenario: the /auth/me verification fetch answers
401, the refresh succeeds and the retried verification returns the fresh
user. -/
def c4Env : NetEnv :=
  { firstOutcome := .response 401 "" none
    refreshOutcome := .ok { access_token := "a1", refresh_token := some "r1",
                            token_type := some "bearer", expires_in := some 1800 }
    retryOutcome := .response 200 "fresh-user" none }

/-- C4 counterexample: during session initialization with a stored session, a
401 on the verification call triggers one token refresh, because getCurrentUser
goes through the ordinary requireAuth pipeline; the claim that no refresh is
triggered by the verification call is false. -/
theorem c4_init_verification_refreshes :
    (initializeAuth (some demoTokens) (some "user-json") c4Env).refreshCalls
      = 1 := by decide

/-- C4 amended: the session-initialization verification call goes through the
normal refresh-and-retry pipeline, so a 401 with a stored refresh token
triggers exactly one refresh call during verification; and whenever the
verification request ends in an error, the credentials are cleared and the
state is Unauthenticated. -/
theorem c4_init_verification_uses_pipeline :
    (∀ (tokens : AuthTokens) (u : String) (env : NetEnv) (b : String)
        (d : Option String) (rt : String),
        env.firstOutcome = .response 401 b d →
        getRefreshToken (some tokens) = some rt →
        (initializeAuth (some tokens) (some u) env).refreshCalls = 1)
    ∧ (∀ (tokens : AuthTokens) (u : String) (env : NetEnv) (e : String),
        (request (some tokens) true env).outcome = .error e →
        (initializeAuth (some tokens) (some u) env).isAuthenticated = false
        ∧ (initializeAuth (some tokens) (some u) env).store = none
        ∧ (initializeAuth (some tokens) (some u) env).userStore = none) := by
  constructor
  · intro tokens u env b d rt hfirst hrt
    have hcalls : (request (some tokens) true env).refreshCalls = 1 := by
      unfold request
      rw [hfirst, hrt]
      dsimp only
      rw [if_pos (by rfl)]
      cases env.refreshOutcome with
      | error e => rfl
      | ok resp =>
          dsimp only
          cases env.retryOutcome with
          | netError m => rfl
          | response rs rbody rd =>
              dsimp only
              by_cases hok : isOkStatus rs = true
              · rw [if_pos hok]
              · rw [if_neg hok]
    unfold initializeAuth
    cases houtcome : (request (some tokens) true env).outcome with
    | ok body => dsimp only; rw [houtcome]; exact hcalls
    | error e => dsimp only; rw [houtcome]; exact hcalls
  · intro tokens u env e herr
    unfold initializeAuth
    dsimp only
    rw [herr]
    exact ⟨rfl, rfl, rfl⟩

/-- Witness for the amended C4 at the concrete scenario. -/
theorem c4_init_verification_uses_pipeline_witness :
    (initializeAuth (some demoTokens) (some "user-json") c4Env).refreshCalls = 1
    ∧ (initializeAuth (some demoTokens) (some "user-json")
        c3Env401).isAuthenticated = false :=
  ⟨c4_init_verification_uses_pipeline.1 demoTokens "user-json" c4Env "" none
      "r0" rfl (by decide),
   (c4_init_verification_uses_pipeline.2 demoTokens "user-json" c3Env401
      authRequiredMsg (by decide)).1⟩

/-- Fact-change trace of the C9 counterexample: permission granted with token
t1, then authentication, then a new token t2 while still authenticated. -/
def c9Events : List NotifEvent :=
  [.permissionUpdate true (some "t1"), .setAuth true,
   .permissionUpdate true (some "t2")]

/-- C9 counterexample: with every registration attempt succeeding, after the
trace the current token is t2 with permission and authentication both true and
no registration success recorded for t2, yet the attempt list still holds only
the t1 attempt: the provider keys its success on the single isRegistered flag,
not on the current token, so no registration fires for the new token, refuting
the stated iff. -/
theorem c9_new_token_not_reregistered :
    notificationRun (fun _ => true) initialNotifState c9Events
      = { expoPushToken := some "t2", isPermissionGranted := true,
          isRegistered := true, isAuthenticated := true,
          attempts := ["t1"], successes := ["t1"] } := by decide

/-- C9 amended: a registration attempt fires on a fact change iff the session
is authenticated, a push token is present and the single per-session
isRegistered flag is still false (the flag is not keyed by token; permission
enters only through token acquisition); and once a registration has succeeded,
any sequence of authentication toggles without a new token triggers no further
attempt. -/
theorem c9_registration_gating :
    (∀ (env : Nat → Bool) (s : NotifState),
        (notificationEffect env s).attempts.length
          = s.attempts.length
            + (if s.isAuthenticated && s.expoPushToken.isSome
                  && !s.isRegistered then 1 else 0))
    ∧ (∀ (env : Nat → Bool) (s : NotifState) (evs : List NotifEvent),
        s.isRegistered = true →
        (∀ ev ∈ evs, ∃ b, ev = NotifEvent.setAuth b) →
        (notificationRun env s evs).attempts = s.attempts) := by
  constructor
  · intro env s
    unfold notificationEffect
    cases htok : s.expoPushToken with
    | none => simp [htok]
    | some tok =>
        cases hguard : s.isAuthenticated && !s.isRegistered with
        | false =>
            dsimp only
            simp only [Option.isSome_some, Bool.and_true]
            rw [hguard]
            simp
        | true =>
            dsimp only
            simp only [Option.isSome_some, Bool.and_true]
            rw [hguard]
            simp
  · intro env s evs hreg hall
    induction evs generalizing s with
    | nil => rfl
    | cons ev rest ih =>
        obtain ⟨b, rfl⟩ := hall ev (List.mem_cons_self ev rest)
        have hstep : notificationStep env s (.setAuth b)
            = { s with isAuthenticated := b } := by
          unfold notificationStep notificationEffect
          cases htok : s.expoPushToken with
          | none => rfl
          | some tok => rw [hreg]; simp
        unfold notificationRun
        rw [List.foldl_cons]
        show (notificationRun env (notificationStep env s (.setAuth b)) rest).attempts
          = s.attempts
        rw [hstep]
        exact ih { s with isAuthenticated := b } hreg
          (fun e he => hall e (List.mem_cons_of_mem _ he))

/-- The registered provider state used by the C9 witness. -/
def c9RegisteredState : NotifState :=
  { expoPushToken := some "t1", isPermissionGranted := true,
    isRegistered := true, isAuthenticated := true,
    attempts := ["t1"], successes := ["t1"] }

/-- Witness for the amended C9: toggling authentication off and back on after
a successful registration issues no further attempt. -/
theorem c9_registration_gating_witness :
    (notificationRun (fun _ => true) c9RegisteredState
        [.setAuth false, .setAuth true]).attempts
      = c9RegisteredState.attempts :=
  c9_registration_gating.2 (fun _ => true) c9RegisteredState
    [.setAuth false, .setAuth true] rfl
    (by
      intro ev hev
      simp only [List.mem_cons, List.not_mem_nil, or_false] at hev
      rcases hev with rfl | rfl
      · exact ⟨false, rfl⟩
      · exact ⟨true, rfl⟩)
